import Mathlib

/-!
Verification of the AI article generator's core pipeline against its code.

The development shallowly embeds the relevant JavaScript source files:
* `src/services/openaiService.js` (shipped inline in the repository README):
  `callOpenAIAPI`, `cleanJSONResponse`, `getMockResponse`,
  `generateMockArticleContent`, `getJSONSchema`;
* `src/services/articleService.js`: `generateAdvancedArticle`,
  `generateBatchArticles`, `getArticleStats`.

JavaScript values flowing through the pipeline are modelled by the `Json`
inductive below (numbers as `Rat`); the external HTTP transport and the host
JSON parser are modelled as explicit oracles passed to the embedded
functions; `async`/`throw` is modelled with `Except String`.
-/

set_option autoImplicit false

/-- A JSON/JavaScript value. Numbers are modelled as rationals (every literal
appearing in the repository is a finite decimal). -/
inductive Json where
  | null
  | bool (b : Bool)
  | num (q : Rat)
  | str (s : String)
  | arr (elems : List Json)
  | obj (fields : List (String × Json))

/-- JavaScript truthiness of a value (`null`, `false`, `0` and `""` are
falsy; arrays and objects are always truthy). -/
def jsTruthy : Json → Bool
  | Json.null => false
  | Json.bool b => b
  | Json.num q => !(q == 0)
  | Json.str s => !(s == "")
  | Json.arr _ => true
  | Json.obj _ => true

/-- Property lookup `j[k]`: `none` models JavaScript `undefined` (missing key
or non-object receiver). -/
def jsField (j : Json) (k : String) : Option Json :=
  match j with
  | Json.obj fields => (fields.find? (fun kv => kv.1 == k)).map (·.2)
  | _ => none

/-- Truthiness of `j.k`, i.e. the JavaScript test `j.k` used in `if` guards
(`undefined` is falsy). -/
def truthyField (j : Json) (k : String) : Bool :=
  match jsField j k with
  | some v => jsTruthy v
  | none => false

/-- Whether the object `j` carries a member named `k` at all. -/
def hasKey (j : Json) (k : String) : Bool :=
  match j with
  | Json.obj fields => fields.any (fun kv => kv.1 == k)
  | _ => false

/-- Whether the success case of an `Except` computation was reached; models
"the awaited call did not throw". -/
def succeeded {α : Type} : Except String α → Bool
  | Except.ok _ => true
  | Except.error _ => false

/-- Success value of an `Except` computation, `none` when it threw. -/
def exceptToOption {α : Type} : Except String α → Option α
  | Except.ok a => some a
  | Except.error _ => none

/-- Does the character list begin with the given pattern? Helper for the
JavaScript `String.prototype.includes` model. -/
def startsWithL : List Char → List Char → Bool
  | _, [] => true
  | [], _ :: _ => false
  | a :: as, b :: bs => a == b && startsWithL as bs

/-- Does `pat` occur as a contiguous run inside the list? -/
def containsSubL (pat : List Char) : List Char → Bool
  | [] => startsWithL [] pat
  | c :: tl => startsWithL (c :: tl) pat || containsSubL pat tl

/-- Model of JavaScript `s.includes(pat)`. -/
def jsIncludes (s pat : String) : Bool :=
  containsSubL pat.toList s.toList

/-- Whitespace trimming on character lists (model of JavaScript
`String.prototype.trim`). -/
def jsTrimL (cs : List Char) : List Char :=
  ((cs.dropWhile Char.isWhitespace).reverse.dropWhile Char.isWhitespace).reverse

/-- Model of JavaScript `s.trim()`. -/
def jsTrim (s : String) : String :=
  (jsTrimL s.toList).asString

/-- Model of JavaScript `s.indexOf(c)`: index of the first occurrence of the
character, `-1` when absent. -/
def jsIndexOf (cs : List Char) (c : Char) : Int :=
  match cs.findIdx? (· == c) with
  | some i => (i : Int)
  | none => -1

/-- Model of JavaScript `s.lastIndexOf(c)`: index of the last occurrence of
the character, `-1` when absent. -/
def jsLastIndexOf (cs : List Char) (c : Char) : Int :=
  match cs.reverse.findIdx? (· == c) with
  | some i => ((cs.length : Int) - 1 - (i : Int))
  | none => -1

/-- One left-to-right pass of `content.replace(/\x60\x60\x60json\n?/g, '')`
from `cleanJSONResponse`: every occurrence of three backticks followed by
`json` is removed together with one directly following newline. -/
def stripFenceJson : List Char → List Char
  | '\x60' :: '\x60' :: '\x60' :: 'j' :: 's' :: 'o' :: 'n' :: '\n' :: rest => stripFenceJson rest
  | '\x60' :: '\x60' :: '\x60' :: 'j' :: 's' :: 'o' :: 'n' :: rest => stripFenceJson rest
  | c :: tl => c :: stripFenceJson tl
  | [] => []

/-- One left-to-right pass of `content.replace(/\x60\x60\x60\n?/g, '')` from
`cleanJSONResponse`: every remaining triple-backtick marker is removed
together with one directly following newline. -/
def stripFence3 : List Char → List Char
  | '\x60' :: '\x60' :: '\x60' :: '\n' :: rest => stripFence3 rest
  | '\x60' :: '\x60' :: '\x60' :: rest => stripFence3 rest
  | c :: tl => c :: stripFence3 tl
  | [] => []

/-- Embedding of `openaiService.cleanJSONResponse` (README lines 538-555):
strips code-fence markers, then cuts the text before index
`Math.max(content.indexOf('\x7b'), content.indexOf('['))` when that index is
positive, then cuts the text after index
`Math.max(content.lastIndexOf('\x7d'), content.lastIndexOf(']'))` when that
index is not `-1` and not already the last position, and finally trims. -/
def cleanJSONResponse (content : String) : String :=
  let cs0 := stripFence3 (stripFenceJson content.toList)
  let jsonStart : Int := max (jsIndexOf cs0 '{') (jsIndexOf cs0 '[')
  let cs1 := if jsonStart > 0 then cs0.drop jsonStart.toNat else cs0
  let jsonEnd : Int := max (jsLastIndexOf cs1 '}') (jsLastIndexOf cs1 ']')
  let cs2 :=
    if jsonEnd != -1 && jsonEnd < (cs1.length : Int) - 1 then
      cs1.take (jsonEnd.toNat + 1)
    else cs1
  (jsTrimL cs2).asString

/-- Shape of a JSON schema as produced by `getJSONSchema`: the repository only
uses `string`, `number`, `integer`, homogeneous arrays, and objects with
declared properties, a required list and `additionalProperties: false`. -/
inductive Schema where
  | str
  | num
  | int
  | arr (item : Schema)
  | obj (props : List (String × Schema)) (required : List String)

mutual

/-- Does a JSON value conform to a schema? Required fields must be present,
every present field must be declared with a matching type, and (as all the
repository schemas set `additionalProperties: false`) undeclared fields are
rejected. -/
def conforms (s : Schema) (j : Json) : Bool :=
  match s, j with
  | Schema.str, Json.str _ => true
  | Schema.num, Json.num _ => true
  | Schema.int, Json.num q => q.den == 1
  | Schema.arr it, Json.arr xs => conformsArr it xs
  | Schema.obj props required, Json.obj fields =>
    required.all (fun k => fields.any (fun kv => kv.1 == k)) && conformsFields props fields
  | _, _ => false
termination_by sizeOf s + sizeOf j

/-- Every element of the array conforms to the item schema. -/
def conformsArr (it : Schema) (xs : List Json) : Bool :=
  match xs with
  | [] => true
  | x :: tl => conforms it x && conformsArr it tl
termination_by sizeOf it + sizeOf xs

/-- Every field of the object is declared in `props` with a conforming
value. -/
def conformsFields (props : List (String × Schema)) (fields : List (String × Json)) : Bool :=
  match fields with
  | [] => true
  | (k, v) :: tl => conformsKey props k v && conformsFields props tl
termination_by sizeOf props + sizeOf fields

/-- Look the key up among the declared properties and check its value. -/
def conformsKey (props : List (String × Schema)) (k : String) (v : Json) : Bool :=
  match props with
  | [] => false
  | (k2, s2) :: tl => if k2 == k then conforms s2 v else conformsKey tl k v
termination_by sizeOf props + sizeOf v

end

/-- A schema descriptor as returned by `getJSONSchema`: name, the
`strict: true` marker, and the schema itself. -/
structure SchemaDescriptor where
  name : String
  strict : Bool
  schema : Schema

/-- Embedding of `openaiService.getJSONSchema` (README lines 936-1076): the
strict JSON schema attached to structured requests, per task type; `none`
for unknown task types. -/
def getJSONSchema (taskType : String) : Option SchemaDescriptor :=
  if taskType = "trending_analysis" then
    some { name := "trending_analysis", strict := true,
           schema := Schema.obj
             [("trending_topics", Schema.arr (Schema.obj
                [("headline", Schema.str),
                 ("significance_score", Schema.num),
                 ("trend_velocity", Schema.str),
                 ("key_angles", Schema.arr Schema.str),
                 ("target_keywords", Schema.arr Schema.str),
                 ("estimated_interest", Schema.str)]
                ["headline", "significance_score", "trend_velocity", "key_angles",
                 "target_keywords", "estimated_interest"]))]
             ["trending_topics"] }
  else if taskType = "article_generation" then
    some { name := "article_generation", strict := true,
           schema := Schema.obj
             [("title", Schema.str),
              ("subtitle", Schema.str),
              ("content", Schema.str),
              ("tags", Schema.arr Schema.str),
              ("estimated_read_time", Schema.str),
              ("word_count", Schema.int),
              ("seo_score", Schema.num),
              ("engagement_factors", Schema.arr Schema.str)]
             ["title", "subtitle", "content", "tags", "estimated_read_time", "word_count"] }
  else if taskType = "article_selection" then
    some { name := "article_selection", strict := true,
           schema := Schema.obj
             [("selected_article", Schema.obj
                [("article_index", Schema.int),
                 ("title", Schema.str),
                 ("subtitle", Schema.str),
                 ("content", Schema.str),
                 ("tags", Schema.arr Schema.str),
                 ("estimated_read_time", Schema.str)]
                ["article_index", "title", "subtitle", "content", "tags",
                 "estimated_read_time"]),
              ("selection_reasoning", Schema.obj
                [("quality_score", Schema.num),
                 ("strengths", Schema.arr Schema.str),
                 ("optimization_suggestions", Schema.arr Schema.str)]
                ["quality_score", "strengths", "optimization_suggestions"])]
             ["selected_article", "selection_reasoning"] }
  else if taskType = "article_optimization" then
    some { name := "article_optimization", strict := true,
           schema := Schema.obj
             [("optimized_article", Schema.obj
                [("title", Schema.str),
                 ("subtitle", Schema.str),
                 ("content", Schema.str),
                 ("tags", Schema.arr Schema.str),
                 ("meta_description", Schema.str),
                 ("estimated_read_time", Schema.str)]
                ["title", "subtitle", "content", "tags", "meta_description",
                 "estimated_read_time"]),
              ("optimization_applied", Schema.arr Schema.str),
              ("seo_improvements", Schema.arr Schema.str)]
             ["optimized_article", "optimization_applied", "seo_improvements"] }
  else if taskType = "performance_prediction" then
    some { name := "performance_prediction", strict := true,
           schema := Schema.obj
             [("predicted_metrics", Schema.obj
                [("estimated_views", Schema.str),
                 ("estimated_read_ratio", Schema.num),
                 ("estimated_claps", Schema.str),
                 ("viral_potential", Schema.str)]
                ["estimated_views", "estimated_read_ratio", "estimated_claps",
                 "viral_potential"]),
              ("success_factors", Schema.arr Schema.str),
              ("improvement_recommendations", Schema.arr Schema.str),
              ("confidence_level", Schema.str)]
             ["predicted_metrics", "success_factors", "improvement_recommendations",
              "confidence_level"] }
  else
    none

/-- Embedding of `openaiService.generateMockArticleContent` (README lines
638-711): deterministic markdown article used by the mock fallback; the
topic is recovered from the prompt text after `about:` when present. -/
def generateMockArticleContent (prompt : String) : String :=
  let topic :=
    if jsIncludes prompt "about:" then
      jsTrim ((((prompt.splitOn "about:").getD 1 "").splitOn "\n").getD 0 "")
    else "Modern Technology Trends"
  let lower := topic.toLower
  "# " ++ topic ++ "\n\n## Introduction\n\nIn today\x27s rapidly evolving digital landscape, understanding "
    ++ lower
    ++ " has become crucial for professionals across all industries. This comprehensive guide explores the key aspects, implications, and future prospects of this important subject.\n\n## Background and Context\n\n"
    ++ topic
    ++ " has gained significant attention in recent years due to its transformative potential. Industry experts predict that this trend will continue to reshape how we work, communicate, and solve complex problems.\n\n## Key Developments\n\n### Current State\n\nThe current state of "
    ++ lower
    ++ " reflects a mature yet rapidly evolving field. Organizations worldwide are investing heavily in related technologies and methodologies to stay competitive.\n\n### Emerging Trends\n\nSeveral emerging trends are shaping the future of "
    ++ lower
    ++ ":\n\n- **Innovation Acceleration**: New developments are emerging at an unprecedented pace\n- **Integration Focus**: Greater emphasis on seamless integration with existing systems\n- **User-Centric Design**: Prioritizing user experience and accessibility\n- **Sustainability Considerations**: Environmental and social impact awareness\n\n## Practical Applications\n\nReal-world applications of "
    ++ lower
    ++ " demonstrate its versatility and potential:\n\n1. **Enterprise Solutions**: Large organizations leveraging these concepts for operational efficiency\n2. **Small Business Adoption**: Smaller companies finding innovative ways to implement solutions\n3. **Individual Use Cases**: Personal applications that enhance daily productivity\n\n## Challenges and Opportunities\n\n### Current Challenges\n\n- Technical complexity and implementation barriers\n- Resource allocation and investment requirements\n- Skills gap and training needs\n- Integration with legacy systems\n\n### Future Opportunities\n\n- Market expansion and new business models\n- Cross-industry collaboration potential\n- Innovation in user interfaces and experiences\n- Global accessibility and democratization\n\n## Best Practices\n\nBased on industry research and expert insights, consider these best practices:\n\n- Start with small-scale pilot projects\n- Invest in team training and development\n- Maintain focus on user needs and feedback\n- Plan for scalability from the beginning\n- Monitor performance and iterate regularly\n\n## Future Outlook\n\nThe future of "
    ++ lower
    ++ " looks promising, with continued investment and innovation expected. Key areas to watch include technological advancement, regulatory developments, and changing user expectations.\n\n## Conclusion\n\n"
    ++ topic
    ++ " represents a significant opportunity for organizations and individuals willing to embrace change and innovation. By understanding the current landscape and preparing for future developments, stakeholders can position themselves for success in this evolving field.\n\nSuccess in "
    ++ lower
    ++ " requires a balanced approach combining technical expertise, strategic thinking, and user-focused design. As the field continues to evolve, staying informed and adaptable will be key to maximizing benefits and minimizing risks."

/-- Embedding of `openaiService.getMockResponse` (README lines 560-633): the
deterministic fallback ("mock") response substituted when a structured-JSON
call cannot be parsed, keyed by task type; unknown task types yield the
object with the single `error` member. -/
def getMockResponse (taskType prompt : String) : Json :=
  if taskType = "trending_analysis" then
    Json.obj
      [("trending_topics", Json.arr
        [Json.obj
          [("headline", Json.str "AI Revolution in Modern Technology"),
           ("significance_score", Json.num (8.5 : Rat)),
           ("trend_velocity", Json.str "rising_fast"),
           ("key_angles", Json.arr
             [Json.str "automation", Json.str "machine learning", Json.str "future of work"]),
           ("target_keywords", Json.arr
             [Json.str "artificial intelligence", Json.str "AI technology", Json.str "automation"]),
           ("estimated_interest", Json.str "high")],
         Json.obj
          [("headline", Json.str "Digital Transformation Trends"),
           ("significance_score", Json.num (7.8 : Rat)),
           ("trend_velocity", Json.str "steady_rise"),
           ("key_angles", Json.arr
             [Json.str "digital innovation", Json.str "business transformation",
              Json.str "technology adoption"]),
           ("target_keywords", Json.arr
             [Json.str "digital transformation", Json.str "innovation", Json.str "technology"]),
           ("estimated_interest", Json.str "high")]])]
  else if taskType = "article_generation" then
    Json.obj
      [("title", Json.str "Understanding Modern Technology Trends"),
       ("subtitle", Json.str "A comprehensive guide to navigating the digital landscape"),
       ("content", Json.str (generateMockArticleContent prompt)),
       ("tags", Json.arr
         [Json.str "technology", Json.str "innovation", Json.str "digital",
          Json.str "trends", Json.str "future"]),
       ("estimated_read_time", Json.str "6 min read"),
       ("word_count", Json.num (1200 : Rat)),
       ("seo_score", Json.num (8.5 : Rat)),
       ("engagement_factors", Json.arr
         [Json.str "compelling headline", Json.str "clear structure",
          Json.str "actionable insights"])]
  else if taskType = "article_selection" then
    Json.obj
      [("selected_article", Json.obj
         [("article_index", Json.num (0 : Rat)),
          ("title", Json.str "The Future of Technology: Trends to Watch"),
          ("subtitle", Json.str "Exploring the innovations that will shape tomorrow"),
          ("content", Json.str (generateMockArticleContent prompt)),
          ("tags", Json.arr
            [Json.str "technology", Json.str "future", Json.str "innovation", Json.str "trends"]),
          ("estimated_read_time", Json.str "5 min read")]),
       ("selection_reasoning", Json.obj
         [("quality_score", Json.num (8.7 : Rat)),
          ("strengths", Json.arr
            [Json.str "Strong SEO potential", Json.str "Engaging narrative",
             Json.str "Current relevance"]),
          ("optimization_suggestions", Json.arr
            [Json.str "Add more statistics", Json.str "Include case studies",
             Json.str "Enhance conclusion"])])]
  else if taskType = "article_optimization" then
    Json.obj
      [("optimized_article", Json.obj
         [("title", Json.str "The Future of Technology: Essential Trends Every Professional Should Know"),
          ("subtitle", Json.str "A comprehensive analysis of emerging technologies reshaping industries"),
          ("content", Json.str (generateMockArticleContent prompt)),
          ("tags", Json.arr
            [Json.str "technology", Json.str "innovation", Json.str "future",
             Json.str "trends", Json.str "business"]),
          ("meta_description", Json.str "Discover the key technology trends shaping the future. Learn how AI, automation, and digital transformation are revolutionizing industries."),
          ("estimated_read_time", Json.str "7 min read")]),
       ("optimization_applied", Json.arr
         [Json.str "SEO title optimization", Json.str "Keyword integration",
          Json.str "Meta description enhancement"]),
       ("seo_improvements", Json.arr
         [Json.str "Improved keyword density", Json.str "Enhanced readability",
          Json.str "Better structure"])]
  else if taskType = "performance_prediction" then
    Json.obj
      [("predicted_metrics", Json.obj
         [("estimated_views", Json.str "5,000-10,000"),
          ("estimated_read_ratio", Json.num (0.65 : Rat)),
          ("estimated_claps", Json.str "150-300"),
          ("viral_potential", Json.str "moderate")]),
       ("success_factors", Json.arr
         [Json.str "Trending topic", Json.str "Strong SEO", Json.str "Engaging title"]),
       ("improvement_recommendations", Json.arr
         [Json.str "Add more visuals", Json.str "Include expert quotes",
          Json.str "Enhance social sharing"]),
       ("confidence_level", Json.str "high")]
  else
    Json.obj [("error", Json.str "Mock data not available for this task type")]

/-- Either a raw text reply or a parsed JSON object, the two possible success
results of `callOpenAIAPI`. -/
inductive CallResult where
  | text (s : String)
  | json (v : Json)

/-- Outcome of the single upstream `fetch` to the chat-completions endpoint,
as observed by `callOpenAIAPI`: HTTP success flag and status, the parsed
error body's `error.message` when one is available, and
`data.choices[0].message.content` when present. -/
structure HttpOutcome where
  ok : Bool
  status : Nat
  errorMessage : Option String
  content : Option String

/-- Embedding of `openaiService.callOpenAIAPI` (README lines 445-533).
The transport is the `resp` oracle and the host JSON parser is the `parse`
oracle (`none` models a `JSON.parse` exception). Control flow mirrors the
source: a missing API key throws before the try block; a non-success status
or missing content throws inside it; when `returnJSON` is set, a parse
failure of the cleaned content is caught locally and answered with mock
data; the outer catch additionally converts any caught error whose message
contains `JSON` into mock data when `returnJSON` is set, and rethrows
otherwise. -/
def callOpenAIAPI (apiKeyConfigured : Bool) (resp : HttpOutcome)
    (parse : String → Option Json) (prompt : String)
    (returnJSON : Bool) (taskType : String) : Except String CallResult :=
  if !apiKeyConfigured then
    Except.error "OpenAI API key not configured"
  else
    let attempt : Except String CallResult :=
      if !resp.ok then
        Except.error ("OpenAI API error: " ++ toString resp.status ++ " - "
          ++ resp.errorMessage.getD "Unknown error")
      else
        match resp.content with
        | none => Except.error "Invalid response from OpenAI API"
        | some rawContent =>
          let content := jsTrim rawContent
          if returnJSON then
            match parse (cleanJSONResponse content) with
            | some v => Except.ok (CallResult.json v)
            | none => Except.ok (CallResult.json (getMockResponse taskType prompt))
          else
            Except.ok (CallResult.text content)
    match attempt with
    | Except.ok v => Except.ok v
    | Except.error msg =>
      if returnJSON && jsIncludes msg "JSON" then
        Except.ok (CallResult.json (getMockResponse taskType prompt))
      else
        Except.error msg

/-- Resolved request parameters of one advanced generation run, after the
destructuring with config defaults at the top of
`articleService.generateAdvancedArticle`. -/
structure GenParams where
  topic : String
  article_count : Nat
  content_length : String
  tone : String
  search_depth : Nat
  recency_hours : Nat
  quality_threshold : Rat
  seo_keywords : String
  auto_optimize : Bool
  include_analytics : Bool
  custom_prompt_addition : String
  exclude_sources : String

/-- Ambient effects of one run that the service merely records: the fresh
UUID, the measured elapsed milliseconds, and the ISO timestamp. -/
structure Env where
  freshId : String
  elapsedMs : Nat
  nowIso : String

/-- The generation client as seen by the orchestrator: one oracle per
`openaiService` pipeline call, each able to either throw or return an
arbitrary value. Stage-2 calls are indexed by loop position. -/
structure Oracle where
  getTrendingTopics : Except String (List Json)
  generateArticleCandidate : Nat → Json → Except String Json
  selectBestArticle : List Json → Except String Json
  optimizeArticle : Json → Except String Json
  predictPerformance : Json → Except String Json

/-- Persisted article record, mirroring the object stored by
`generateAdvancedArticle` (articleService.js lines 118-136). -/
structure Article where
  id : String
  topic : String
  content_length : String
  tone : String
  search_depth : Nat
  recency_hours : Nat
  quality_threshold : Rat
  seo_keywords : String
  auto_optimize : Bool
  include_analytics : Bool
  trending_topics_analyzed : Nat
  candidates_generated : Nat
  processing_time_ms : Nat
  result : Json
  performance_prediction : Option Json
  createdAt : String
  status : String

/-- Stage-2 loop of `generateAdvancedArticle` (articleService.js lines
52-68): for `i` below `Math.min(article_count, trendingTopics.length)` one
candidate generation is attempted per trending topic; a throwing attempt is
caught, logged and skipped, successful candidates are pushed in order. -/
def candidatesOf (p : GenParams) (o : Oracle) (ts : List Json) : List Json :=
  (List.range (min p.article_count ts.length)).filterMap
    (fun i => exceptToOption (o.generateArticleCandidate i (ts.getD i Json.null)))

/-- The JavaScript test `bestArticle && bestArticle.selected_article` guarding
stage 3's result (articleService.js line 81, negated there). -/
def goodSelection (j : Json) : Bool :=
  jsTruthy j && truthyField j "selected_article"

/-- The JavaScript test `optimizedArticle && optimizedArticle.optimized_article`
deciding whether stage 4's output replaces the selection
(articleService.js line 97). -/
def goodOptimization (j : Json) : Bool :=
  jsTruthy j && truthyField j "optimized_article"

/-- Stage 4 of `generateAdvancedArticle` (articleService.js lines 90-104):
when `auto_optimize` is set, the optimization call runs inside its own
try/catch; its result replaces the selection only when it carries a truthy
`optimized_article`, and a thrown error leaves the selection in place. -/
def pipelineFinal (p : GenParams) (o : Oracle) (best : Json) : Json :=
  if p.auto_optimize then
    match o.optimizeArticle best with
    | Except.ok opt => if goodOptimization opt then opt else best
    | Except.error _ => best
  else best

/-- The article object literal assembled and stored at the end of a
successful run (articleService.js lines 118-136). -/
def assembleArticle (p : GenParams) (env : Env) (ts cands : List Json)
    (finalArticle : Json) (prediction : Option Json) : Article :=
  { id := env.freshId
    topic := p.topic
    content_length := p.content_length
    tone := p.tone
    search_depth := p.search_depth
    recency_hours := p.recency_hours
    quality_threshold := p.quality_threshold
    seo_keywords := p.seo_keywords
    auto_optimize := p.auto_optimize
    include_analytics := p.include_analytics
    trending_topics_analyzed := ts.length
    candidates_generated := cands.length
    processing_time_ms := env.elapsedMs
    result := finalArticle
    performance_prediction := prediction
    createdAt := env.nowIso
    status := "generated" }

/-- Embedding of `articleService.generateAdvancedArticle` (articleService.js
lines 16-152): the five-stage pipeline. Stages 1-3 abort the run by
throwing; stage 4 and stage 5 failures are swallowed (stage 5 leaving the
prediction `null`). On success the assembled record is returned (and stored
under its fresh id). -/
def generateAdvancedArticle (p : GenParams) (o : Oracle) (env : Env) :
    Except String Article :=
  match o.getTrendingTopics with
  | Except.error e => Except.error e
  | Except.ok trendingTopics =>
    if trendingTopics.length = 0 then
      Except.error "No trending topics found for the specified criteria"
    else
      let articleCandidates := candidatesOf p o trendingTopics
      if articleCandidates.length = 0 then
        Except.error "All article generation attempts failed"
      else
        match o.selectBestArticle articleCandidates with
        | Except.error e => Except.error e
        | Except.ok bestArticle =>
          if !goodSelection bestArticle then
            Except.error "Article selection process failed"
          else
            let finalArticle := pipelineFinal p o bestArticle
            let performancePrediction :=
              if p.include_analytics then
                exceptToOption (o.predictPerformance finalArticle)
              else none
            Except.ok (assembleArticle p env trendingTopics articleCandidates
              finalArticle performancePrediction)

/-- One entry of the batch runner's `results` array (articleService.js lines
166-186): topic, loop index, a status string, and either the stored
article's id and timing (success) or the caught error message. -/
structure BatchEntry where
  topic : String
  index : Nat
  status : String
  article_id : Option String
  error : Option String
  processing_time_ms : Option Nat

/-- Return value of `generateBatchArticles` (articleService.js lines
189-194). -/
structure BatchResult where
  batch_results : List BatchEntry
  total_topics : Nat
  successful_generations : Nat
  processing_time_ms : Nat

/-- The entry recorded for the topic at loop index `i`: the advanced pipeline
runs inside a try/catch, a success pushes a `success` entry with the stored
id, a thrown error pushes an `error` entry with the message. -/
def batchEntryFor (shared : GenParams) (oracles : Nat → Oracle) (envs : Nat → Env)
    (i : Nat) (t : String) : BatchEntry :=
  match generateAdvancedArticle { shared with topic := t } (oracles i) (envs i) with
  | Except.ok a =>
    { topic := t, index := i, status := "success", article_id := some a.id,
      error := none, processing_time_ms := some a.processing_time_ms }
  | Except.error e =>
    { topic := t, index := i, status := "error", article_id := none,
      error := some e, processing_time_ms := none }

/-- Embedding of `articleService.generateBatchArticles` (articleService.js
lines 157-195): the orchestrator runs once per topic, strictly in order
(`for (const [index, topic] of topics.entries())`); each topic gets its own
oracle and environment; the inter-request `setTimeout` pause has no
observable effect on the result and is not modelled; `batchElapsed` is the
measured total wall time. -/
def generateBatchArticles (shared : GenParams) (topics : List String)
    (oracles : Nat → Oracle) (envs : Nat → Env) (batchElapsed : Nat) : BatchResult :=
  let results := topics.enum.map (fun p => batchEntryFor shared oracles envs p.1 p.2)
  { batch_results := results
    total_topics := topics.length
    successful_generations := (results.filter (fun r => r.status == "success")).length
    processing_time_ms := batchElapsed }

/-- `config.validTones` (config.js line 63). -/
def validTones : List String :=
  ["professional", "casual", "analytical", "conversational", "authoritative", "engaging"]

/-- The keys of `config.lengthSpecs` (config.js lines 56-60), as enumerated
by `Object.keys` in `getArticleStats`. -/
def lengthSpecKeys : List String :=
  ["short", "medium", "long"]

/-- Statistics record returned by `getArticleStats` (articleService.js lines
328-349); the spec's `computeStats` names these fields `total`, `by_status`,
`by_tone`, `by_length` and `average_processing_time_ms`. -/
structure ArticleStats where
  total_articles : Nat
  by_status_generated : Nat
  by_status_optimized : Nat
  by_tone : List (String × Nat)
  by_length : List (String × Nat)
  average_processing_time : Int

/-- Embedding of `articleService.getArticleStats` (articleService.js lines
328-349) over the store's current list of articles: counts per status, per
valid tone and per length key, and `Math.round` of the mean processing time
(`0` for an empty store). `Math.round` is `round` on rationals: rounding
half toward positive infinity. -/
def getArticleStats (allArticles : List Article) : ArticleStats :=
  { total_articles := allArticles.length
    by_status_generated := (allArticles.filter (fun a => a.status == "generated")).length
    by_status_optimized := (allArticles.filter (fun a => a.auto_optimize)).length
    by_tone := validTones.map
      (fun t => (t, (allArticles.filter (fun a => a.tone == t)).length))
    by_length := lengthSpecKeys.map
      (fun k => (k, (allArticles.filter (fun a => a.content_length == k)).length))
    average_processing_time :=
      if allArticles.length > 0 then
        round ((((allArticles.map (fun a => a.processing_time_ms)).sum : Nat) : Rat)
          / (allArticles.length : Rat))
      else 0 }

/-- The exact condition under which `generateAdvancedArticle` throws, per
claim C1: stage 1 throws or yields an empty list, or every attempted
stage-2 candidate generation throws, or stage 3 throws or returns a value
without a (truthy) `selected_article` member. -/
def runFailureCond (p : GenParams) (o : Oracle) : Prop :=
  succeeded o.getTrendingTopics = false
  ∨ ∃ ts, o.getTrendingTopics = Except.ok ts ∧
      (ts = []
       ∨ (∀ i < min p.article_count ts.length,
            succeeded (o.generateArticleCandidate i (ts.getD i Json.null)) = false)
       ∨ succeeded (o.selectBestArticle (candidatesOf p o ts)) = false
       ∨ ∃ best, o.selectBestArticle (candidatesOf p o ts) = Except.ok best
           ∧ goodSelection best = false)

/-- The error message produced by `callOpenAIAPI` when the upstream response
has a non-success status (carrying status and upstream message) or, with a
success status, lacks `choices[0].message.content`. -/
def transportErrorMsg (resp : HttpOutcome) : String :=
  if resp.ok then "Invalid response from OpenAI API"
  else "OpenAI API error: " ++ toString resp.status ++ " - "
    ++ resp.errorMessage.getD "Unknown error"

/-- Arithmetic mean of the stored articles' processing times, as the exact
rational that `getArticleStats` computes `Math.round` of. -/
def meanProcessingTime (l : List Article) : Rat :=
  (((l.map (fun a => a.processing_time_ms)).sum : Nat) : Rat) / (l.length : Rat)

/-- Default batch entry used only to state positional lookups. -/
def dummyEntry : BatchEntry :=
  { topic := "", index := 0, status := "", article_id := none, error := none,
    processing_time_ms := none }

/-- Whether an optional JSON value is a non-empty array. -/
def nonEmptyArray : Option Json → Bool
  | some (Json.arr (_ :: _)) => true
  | _ => false

theorem exceptToOption_eq_none {α : Type} (x : Except String α) :
    exceptToOption x = none ↔ succeeded x = false := by
  cases x <;> simp [exceptToOption, succeeded]

theorem candidatesOf_eq_nil_iff (p : GenParams) (o : Oracle) (ts : List Json) :
    candidatesOf p o ts = [] ↔
      ∀ i < min p.article_count ts.length,
        succeeded (o.generateArticleCandidate i (ts.getD i Json.null)) = false := by
  simp [candidatesOf, List.filterMap_eq_nil_iff, List.mem_range, exceptToOption_eq_none]

/-- Claim C4 (code bug): `cleanJSONResponse` is documented (and specified) to
remove only leading prose before the first brace or bracket, but it cuts at
`Math.max(content.indexOf('\x7b'), content.indexOf('['))`; on the already
valid JSON object `\x7b"a":[1]\x7d` the cut lands on the inner `[`, and the
function returns the non-JSON fragment `[1]\x7d` instead of leaving the
value intact. -/
theorem c4_cleanJSONResponse_mangles_object_containing_array :
    cleanJSONResponse "\x7b\x22a\x22:[1]\x7d" = "[1]\x7d"
    ∧ "[1]\x7d" ≠ "\x7b\x22a\x22:[1]\x7d" := by
  constructor
  · decide
  · decide

/-- Claim C10: for a task type outside the five known ones, `getMockResponse`
returns the object whose only member is `error`, so a structured-JSON call
whose model output fails to parse resolves to exactly that object rather
than a schema-shaped result. -/
theorem c10_unknown_task_type_mock (taskType prompt : String)
    (h : taskType ∉ ["trending_analysis", "article_generation", "article_selection",
      "article_optimization", "performance_prediction"]) :
    getMockResponse taskType prompt
      = Json.obj [("error", Json.str "Mock data not available for this task type")]
    ∧ ∀ (resp : HttpOutcome) (parse : String → Option Json) (c : String),
        resp.ok = true → resp.content = some c →
        parse (cleanJSONResponse (jsTrim c)) = none →
        callOpenAIAPI true resp parse prompt true taskType
          = Except.ok (CallResult.json
              (Json.obj [("error", Json.str "Mock data not available for this task type")])) := by
  simp only [List.mem_cons, List.not_mem_nil, or_false, not_or] at h
  obtain ⟨h1, h2, h3, h4, h5⟩ := h
  have hmock : getMockResponse taskType prompt
      = Json.obj [("error", Json.str "Mock data not available for this task type")] := by
    simp [getMockResponse, h1, h2, h3, h4, h5]
  refine ⟨hmock, ?_⟩
  intro resp parse c hok hc hp
  simp [callOpenAIAPI, hok, hc, hp, hmock]

/-- Claim C10 witness: the unknown task type `general` at a concrete
parse-failing call. -/
theorem c10_witness :
    getMockResponse "general" "p"
      = Json.obj [("error", Json.str "Mock data not available for this task type")]
    ∧ callOpenAIAPI true ⟨true, 200, none, some "oops"⟩ (fun _ => none) "p" true "general"
      = Except.ok (CallResult.json
          (Json.obj [("error", Json.str "Mock data not available for this task type")])) := by
  have h := c10_unknown_task_type_mock "general" "p" (by decide)
  exact ⟨h.1, h.2 ⟨true, 200, none, some "oops"⟩ (fun _ => none) "oops" rfl rfl rfl⟩

/-- Claim C6: for each of the five known task types, the mock fallback object
conforms to the strict JSON schema that `getJSONSchema` declares for that
task type: all required fields present with declared types, and no
undeclared field present. -/
theorem c6_mock_conforms_to_schema (prompt : String) :
    ((getJSONSchema "trending_analysis").map
      (fun d => conforms d.schema (getMockResponse "trending_analysis" prompt)) = some true)
    ∧ ((getJSONSchema "article_generation").map
      (fun d => conforms d.schema (getMockResponse "article_generation" prompt)) = some true)
    ∧ ((getJSONSchema "article_selection").map
      (fun d => conforms d.schema (getMockResponse "article_selection" prompt)) = some true)
    ∧ ((getJSONSchema "article_optimization").map
      (fun d => conforms d.schema (getMockResponse "article_optimization" prompt)) = some true)
    ∧ ((getJSONSchema "performance_prediction").map
      (fun d => conforms d.schema (getMockResponse "performance_prediction" prompt)) = some true) := by
  refine ⟨?_, ?_, ?_, ?_, ?_⟩ <;>
    simp [getJSONSchema, getMockResponse, conforms, conformsArr, conformsFields, conformsKey]

/-- Claim C3: a structured-JSON call whose (cleaned) model output fails to
parse does not throw but resolves to the deterministic mock response for the
task type; for `trending_analysis` that object carries a non-empty
`trending_topics` array; and any two parse-failing calls with the same task
type and prompt resolve to equal objects. -/
theorem c3_parse_failure_returns_mock (resp : HttpOutcome) (parse : String → Option Json)
    (prompt taskType : String) (c : String)
    (hok : resp.ok = true) (hc : resp.content = some c)
    (hp : parse (cleanJSONResponse (jsTrim c)) = none) :
    callOpenAIAPI true resp parse prompt true taskType
      = Except.ok (CallResult.json (getMockResponse taskType prompt))
    ∧ (taskType = "trending_analysis" →
        nonEmptyArray (jsField (getMockResponse taskType prompt) "trending_topics") = true)
    ∧ (∀ (resp2 : HttpOutcome) (parse2 : String → Option Json) (c2 : String),
        resp2.ok = true → resp2.content = some c2 →
        parse2 (cleanJSONResponse (jsTrim c2)) = none →
        callOpenAIAPI true resp2 parse2 prompt true taskType
          = callOpenAIAPI true resp parse prompt true taskType) := by
  have hcall : callOpenAIAPI true resp parse prompt true taskType
      = Except.ok (CallResult.json (getMockResponse taskType prompt)) := by
    simp [callOpenAIAPI, hok, hc, hp]
  refine ⟨hcall, ?_, ?_⟩
  · intro ht
    subst ht
    simp [getMockResponse, jsField, nonEmptyArray]
  · intro resp2 parse2 c2 hok2 hc2 hp2
    rw [hcall]
    simp [callOpenAIAPI, hok2, hc2, hp2]

/-- Claim C3 witness: a concrete parse-failing structured call for
`trending_analysis` resolves to the mock object. -/
theorem c3_witness :
    callOpenAIAPI true ⟨true, 200, none, some "oops"⟩ (fun _ => none) "p" true "trending_analysis"
      = Except.ok (CallResult.json (getMockResponse "trending_analysis" "p")) :=
  (c3_parse_failure_returns_mock ⟨true, 200, none, some "oops"⟩ (fun _ => none) "p"
    "trending_analysis" "oops" rfl rfl rfl).1

/-- Claim C5 counterexample: a structured-JSON call whose upstream response
has a non-success status (400, message `Invalid JSON payload`) does not fail
with an error as the claim states: because the thrown message contains
`JSON` and structured JSON was requested, the outer catch substitutes the
mock fallback object. -/
theorem c5_counterexample :
    callOpenAIAPI true ⟨false, 400, some "Invalid JSON payload", none⟩ (fun _ => none)
      "p" true "trending_analysis"
      = Except.ok (CallResult.json (getMockResponse "trending_analysis" "p"))
    ∧ ∀ e, callOpenAIAPI true ⟨false, 400, some "Invalid JSON payload", none⟩ (fun _ => none)
        "p" true "trending_analysis" ≠ Except.error e := by
  have h : callOpenAIAPI true ⟨false, 400, some "Invalid JSON payload", none⟩ (fun _ => none)
      "p" true "trending_analysis"
      = Except.ok (CallResult.json (getMockResponse "trending_analysis" "p")) := rfl
  refine ⟨h, fun e he => ?_⟩
  rw [h] at he
  exact absurd he (by simp)

/-- Claim C5 (amended): on a non-success status or missing content the call
fails with the error carrying the upstream status/message when present,
except when structured JSON was requested and that error message contains
the substring `JSON`, in which case the outer catch returns the mock
fallback object for the task type instead. -/
theorem c5_amended_transport_failure (resp : HttpOutcome) (parse : String → Option Json)
    (prompt taskType : String) (returnJSON : Bool)
    (hfail : resp.ok = false ∨ resp.content = none) :
    callOpenAIAPI true resp parse prompt returnJSON taskType
      = if returnJSON && jsIncludes (transportErrorMsg resp) "JSON" then
          Except.ok (CallResult.json (getMockResponse taskType prompt))
        else Except.error (transportErrorMsg resp) := by
  rcases hok : resp.ok with _ | _
  · simp [callOpenAIAPI, hok, transportErrorMsg]
  · rcases hfail with hfail | hfail
    · rw [hok] at hfail
      exact absurd hfail (by simp)
    · simp [callOpenAIAPI, hok, hfail, transportErrorMsg]

/-- Claim C5 witness: a concrete 500 response whose message does not mention
JSON makes the structured call fail with the status-carrying error. -/
theorem c5_witness :
    callOpenAIAPI true ⟨false, 500, some "Rate limit exceeded", none⟩ (fun _ => none)
      "p" true "article_generation"
      = Except.error "OpenAI API error: 500 - Rate limit exceeded" :=
  (c5_amended_transport_failure ⟨false, 500, some "Rate limit exceeded", none⟩ (fun _ => none)
    "p" "article_generation" true (Or.inl rfl)).trans rfl

/-- Claim C9: the statistics operation reports the store's article count, a
zero average for an empty store, and otherwise `Math.round` of the
arithmetic mean of the stored processing times — which is a nearest integer
to that mean; the per-tone and per-length breakdowns cover exactly the
configured tones and length keys. -/
theorem c9_stats_average_processing_time (l : List Article) :
    (getArticleStats l).total_articles = l.length
    ∧ (getArticleStats l).by_tone.map Prod.fst = validTones
    ∧ (getArticleStats l).by_length.map Prod.fst = lengthSpecKeys
    ∧ (l = [] → (getArticleStats l).average_processing_time = 0)
    ∧ (l ≠ [] →
        (getArticleStats l).average_processing_time = round (meanProcessingTime l)
        ∧ ∀ z : ℤ,
            |meanProcessingTime l - ((getArticleStats l).average_processing_time : Rat)|
              ≤ |meanProcessingTime l - (z : Rat)|) := by
  refine ⟨rfl, ?_, ?_, ?_, ?_⟩
  · simp [getArticleStats, validTones]
  · simp [getArticleStats, lengthSpecKeys]
  · intro h
    subst h
    rfl
  · intro h
    have hlen : 0 < l.length := List.length_pos.mpr h
    have havg : (getArticleStats l).average_processing_time
        = round (meanProcessingTime l) := by
      simp [getArticleStats, meanProcessingTime, hlen]
    refine ⟨havg, fun z => ?_⟩
    rw [havg]
    exact round_le _ z

theorem succeeded_eq_false_iff {α : Type} (x : Except String α) :
    succeeded x = false ↔ ¬∃ a, x = Except.ok a := by
  cases x <;> simp [succeeded]

theorem run_ok_characterization (p : GenParams) (o : Oracle) (env : Env) (a : Article) :
    generateAdvancedArticle p o env = Except.ok a ↔
      ∃ ts best, o.getTrendingTopics = Except.ok ts ∧ ts.length ≠ 0
        ∧ candidatesOf p o ts ≠ []
        ∧ o.selectBestArticle (candidatesOf p o ts) = Except.ok best
        ∧ goodSelection best = true
        ∧ a = assembleArticle p env ts (candidatesOf p o ts) (pipelineFinal p o best)
            (if p.include_analytics then
              exceptToOption (o.predictPerformance (pipelineFinal p o best)) else none) := by
  cases hts : o.getTrendingTopics with
  | error e => simp [generateAdvancedArticle, hts]
  | ok ts =>
    by_cases hlen : ts.length = 0
    · have hts0 : ts = [] := List.length_eq_zero.mp hlen
      subst hts0
      simp [generateAdvancedArticle, hts]
    · by_cases hc : (candidatesOf p o ts).length = 0
      · simp [generateAdvancedArticle, hts, hlen, hc, List.length_eq_zero.mp hc]
      · cases hsel : o.selectBestArticle (candidatesOf p o ts) with
        | error e =>
          simp [generateAdvancedArticle, hts, hlen, hc, hsel]
        | ok best =>
          by_cases hgood : goodSelection best
          · have hrun : generateAdvancedArticle p o env
                = Except.ok (assembleArticle p env ts (candidatesOf p o ts)
                    (pipelineFinal p o best)
                    (if p.include_analytics then
                      exceptToOption (o.predictPerformance (pipelineFinal p o best))
                    else none)) := by
              simp [generateAdvancedArticle, hts, hlen, hc, hsel, hgood]
            rw [hrun]
            constructor
            · intro h
              injection h with he
              refine ⟨ts, best, rfl, hlen, ?_, hsel, hgood, he.symm⟩
              intro h0
              exact hc (by simp [h0])
            · rintro ⟨ts2, best2, hts2, _, _, hsel2, _, ha⟩
              injection hts2 with he
              subst he
              rw [hsel] at hsel2
              injection hsel2 with he2
              subst he2
              exact congrArg Except.ok ha.symm
          · simp only [Bool.not_eq_true] at hgood
            simp [generateAdvancedArticle, hts, hlen, hc, hsel, hgood]

/-- Claim C2: every successful run persists a record with
`1 ≤ candidates_generated ≤ min(article_count, trending_topics_analyzed)`,
and a run whose stage-2 loop yields zero candidates fails the whole
request. -/
theorem c2_candidate_count_bounds (p : GenParams) (o : Oracle) (env : Env) :
    (∀ a, generateAdvancedArticle p o env = Except.ok a →
      1 ≤ a.candidates_generated
      ∧ a.candidates_generated ≤ min p.article_count a.trending_topics_analyzed)
    ∧ (∀ ts, o.getTrendingTopics = Except.ok ts → candidatesOf p o ts = [] →
        succeeded (generateAdvancedArticle p o env) = false) := by
  constructor
  · intro a ha
    rw [run_ok_characterization] at ha
    obtain ⟨ts, best, hts, hlen, hc, hsel, hgood, haeq⟩ := ha
    subst haeq
    constructor
    · show 1 ≤ (candidatesOf p o ts).length
      exact Nat.one_le_iff_ne_zero.mpr (fun h0 => hc (List.length_eq_zero.mp h0))
    · show (candidatesOf p o ts).length ≤ min p.article_count ts.length
      calc (candidatesOf p o ts).length
          ≤ (List.range (min p.article_count ts.length)).length :=
            List.length_filterMap_le _ _
        _ = min p.article_count ts.length := List.length_range _
  · intro ts hts hcand
    rw [succeeded_eq_false_iff]
    rintro ⟨a, ha⟩
    rw [run_ok_characterization] at ha
    obtain ⟨ts2, best, hts2, hlen, hc, _⟩ := ha
    rw [hts] at hts2
    injection hts2 with he
    subst he
    exact hc hcand

/-- Claim C2 witness: a concrete successful run with three requested articles
but a single trending topic persists exactly one candidate, within the
claimed bounds. -/
theorem c2_witness :
    1 ≤ (assembleArticle ⟨"ai", 3, "medium", "professional", 10, 24, 7, "", false, true, "", ""⟩
        ⟨"id1", 5, "t0"⟩ [Json.str "t1"] [Json.obj []]
        (Json.obj [("selected_article", Json.obj [])]) none).candidates_generated
    ∧ (assembleArticle ⟨"ai", 3, "medium", "professional", 10, 24, 7, "", false, true, "", ""⟩
        ⟨"id1", 5, "t0"⟩ [Json.str "t1"] [Json.obj []]
        (Json.obj [("selected_article", Json.obj [])]) none).candidates_generated
      ≤ min 3 (assembleArticle ⟨"ai", 3, "medium", "professional", 10, 24, 7, "", false, true, "", ""⟩
        ⟨"id1", 5, "t0"⟩ [Json.str "t1"] [Json.obj []]
        (Json.obj [("selected_article", Json.obj [])]) none).trending_topics_analyzed :=
  (c2_candidate_count_bounds ⟨"ai", 3, "medium", "professional", 10, 24, 7, "", false, true, "", ""⟩
    ⟨Except.ok [Json.str "t1"], fun _ _ => Except.ok (Json.obj []),
     fun _ => Except.ok (Json.obj [("selected_article", Json.obj [])]),
     fun _ => Except.error "opt failed", fun _ => Except.error "pred failed"⟩
    ⟨"id1", 5, "t0"⟩).1 _ rfl

theorem runFailureCond_iff_no_success (p : GenParams) (o : Oracle) :
    runFailureCond p o ↔
      ¬∃ ts best, o.getTrendingTopics = Except.ok ts ∧ ts.length ≠ 0
        ∧ candidatesOf p o ts ≠ []
        ∧ o.selectBestArticle (candidatesOf p o ts) = Except.ok best
        ∧ goodSelection best = true := by
  constructor
  · rintro (h | ⟨ts, hts, hcase⟩) ⟨ts2, best, hts2, hlen, hc, hsel, hgood⟩
    · rw [hts2] at h
      simp [succeeded] at h
    · rw [hts] at hts2
      injection hts2 with he
      subst he
      rcases hcase with h | h | h | ⟨best2, hsel2, hgood2⟩
      · subst h
        simp at hlen
      · exact hc ((candidatesOf_eq_nil_iff p o ts).mpr h)
      · rw [hsel] at h
        simp [succeeded] at h
      · rw [hsel] at hsel2
        injection hsel2 with he2
        subst he2
        rw [hgood] at hgood2
        exact absurd hgood2 (by simp)
  · intro hn
    cases hts : o.getTrendingTopics with
    | error e => exact Or.inl (by simp [hts, succeeded])
    | ok ts =>
      refine Or.inr ⟨ts, hts, ?_⟩
      by_cases hlen : ts = []
      · exact Or.inl hlen
      by_cases hc : candidatesOf p o ts = []
      · exact Or.inr (Or.inl ((candidatesOf_eq_nil_iff p o ts).mp hc))
      cases hsel : o.selectBestArticle (candidatesOf p o ts) with
      | error e2 => exact Or.inr (Or.inr (Or.inl (by simp [hsel, succeeded])))
      | ok best =>
        by_cases hgood : goodSelection best = true
        · exact absurd
            ⟨ts, best, hts, fun h0 => hlen (List.length_eq_zero.mp h0), hc, hsel, hgood⟩ hn
        · exact Or.inr (Or.inr (Or.inr ⟨best, rfl, by simpa using hgood⟩))

/-- Claim C1: with the generation client as a per-call oracle, a run of
`generateAdvancedArticle` throws exactly when stage 1 throws or yields an
empty trending list, or every attempted stage-2 generation throws, or stage
3 throws or returns without a (truthy) `selected_article`; and a successful
run on which stage 4 threw carries the stage-3 selection as its result,
while a successful run on which stage 5 threw carries a null performance
prediction. -/
theorem c1_pipeline_error_policy (p : GenParams) (o : Oracle) (env : Env) :
    (succeeded (generateAdvancedArticle p o env) = false ↔ runFailureCond p o)
    ∧ (∀ ts best a, o.getTrendingTopics = Except.ok ts →
        o.selectBestArticle (candidatesOf p o ts) = Except.ok best →
        generateAdvancedArticle p o env = Except.ok a →
        (succeeded (o.optimizeArticle best) = false → a.result = best)
        ∧ (succeeded (o.predictPerformance a.result) = false →
            a.performance_prediction = none)) := by
  constructor
  · rw [succeeded_eq_false_iff, runFailureCond_iff_no_success]
    apply not_congr
    constructor
    · rintro ⟨a, ha⟩
      rw [run_ok_characterization] at ha
      obtain ⟨ts, best, h1, h2, h3, h4, h5, _⟩ := ha
      exact ⟨ts, best, h1, h2, h3, h4, h5⟩
    · rintro ⟨ts, best, h1, h2, h3, h4, h5⟩
      exact ⟨_, (run_ok_characterization p o env _).mpr ⟨ts, best, h1, h2, h3, h4, h5, rfl⟩⟩
  · intro ts best a hts hsel ha
    rw [run_ok_characterization] at ha
    obtain ⟨ts2, best2, hts2, hlen, hc, hsel2, hgood, haeq⟩ := ha
    rw [hts] at hts2
    injection hts2 with he
    subst he
    rw [hsel] at hsel2
    injection hsel2 with he2
    subst he2
    subst haeq
    constructor
    · intro hoptfail
      show pipelineFinal p o best = best
      cases hopt : o.optimizeArticle best with
      | error e => simp [pipelineFinal, hopt]
      | ok opt =>
        rw [hopt] at hoptfail
        simp [succeeded] at hoptfail
    · intro hpredfail
      show (if p.include_analytics then
          exceptToOption (o.predictPerformance (pipelineFinal p o best)) else none) = none
      have hres : (assembleArticle p env ts (candidatesOf p o ts) (pipelineFinal p o best)
          (if p.include_analytics then
            exceptToOption (o.predictPerformance (pipelineFinal p o best)) else none)).result
          = pipelineFinal p o best := rfl
      rw [hres] at hpredfail
      cases hpred : o.predictPerformance (pipelineFinal p o best) with
      | error e => simp [exceptToOption, hpred]
      | ok v =>
        rw [hpred] at hpredfail
        simp [succeeded] at hpredfail

/-- Claim C1 witness: a concrete run in which stage 4 and stage 5 both throw
still succeeds, keeps the stage-3 selection as its result, and records a
null performance prediction. -/
theorem c1_witness :
    (assembleArticle ⟨"ai", 3, "medium", "professional", 10, 24, 7, "", true, true, "", ""⟩
        ⟨"id1", 5, "t0"⟩ [Json.str "t1"] [Json.obj []]
        (Json.obj [("selected_article", Json.obj [])]) none).result
      = Json.obj [("selected_article", Json.obj [])]
    ∧ (assembleArticle ⟨"ai", 3, "medium", "professional", 10, 24, 7, "", true, true, "", ""⟩
        ⟨"id1", 5, "t0"⟩ [Json.str "t1"] [Json.obj []]
        (Json.obj [("selected_article", Json.obj [])]) none).performance_prediction = none := by
  have h := (c1_pipeline_error_policy
    ⟨"ai", 3, "medium", "professional", 10, 24, 7, "", true, true, "", ""⟩
    ⟨Except.ok [Json.str "t1"], fun _ _ => Except.ok (Json.obj []),
     fun _ => Except.ok (Json.obj [("selected_article", Json.obj [])]),
     fun _ => Except.error "opt failed", fun _ => Except.error "pred failed"⟩
    ⟨"id1", 5, "t0"⟩).2 [Json.str "t1"] (Json.obj [("selected_article", Json.obj [])]) _
    rfl rfl rfl
  exact ⟨h.1 rfl, h.2 rfl⟩

theorem conformsKey_any (props : List (String × Schema)) (k : String) (v : Json)
    (h : conformsKey props k v = true) : props.any (fun kv => kv.1 == k) = true := by
  induction props with
  | nil => simp [conformsKey] at h
  | cons hd tl ih =>
    obtain ⟨k2, s2⟩ := hd
    simp only [conformsKey] at h
    by_cases hk : (k2 == k) = true
    · simp [hk]
    · rw [if_neg (by simpa using hk)] at h
      simp [List.any_cons, ih h, hk]

theorem conformsFields_any (props : List (String × Schema))
    (fields : List (String × Json)) (k : String)
    (h : conformsFields props fields = true)
    (hk : fields.any (fun kv => kv.1 == k) = true) :
    props.any (fun kv => kv.1 == k) = true := by
  induction fields with
  | nil => simp at hk
  | cons hd tl ih =>
    obtain ⟨k1, v1⟩ := hd
    simp only [conformsFields, Bool.and_eq_true] at h
    simp only [List.any_cons, Bool.or_eq_true] at hk
    rcases hk with hk | hk
    · have he : k1 = k := by simpa using hk
      subst he
      exact conformsKey_any props k1 v1 h.1
    · exact ih h.2 hk

theorem conforms_obj_key_declared (props : List (String × Schema)) (req : List String)
    (j : Json) (k : String) (hconf : conforms (Schema.obj props req) j = true)
    (hk : hasKey j k = true) : props.any (fun kv => kv.1 == k) = true := by
  cases j with
  | obj fields =>
    simp only [conforms, Bool.and_eq_true] at hconf
    exact conformsFields_any props fields k hconf.2 (by simpa [hasKey] using hk)
  | null => simp [conforms] at hconf
  | bool b => simp [conforms] at hconf
  | num q => simp [conforms] at hconf
  | str s => simp [conforms] at hconf
  | arr xs => simp [conforms] at hconf

/-- Claim C7 counterexample: the code never validates the parsed stage-3
JSON against the `article_selection` schema, so a model selection response
that carries a spurious `optimized_article` member alongside
`selected_article` passes the `!bestArticle.selected_article` guard and is
persisted verbatim even with `auto_optimize = false` — the persisted
record's result then does contain an `optimized_article` key, refuting the
claim as stated. -/
theorem c7_counterexample :
    (⟨"ai", 3, "medium", "professional", 10, 24, 7, "", false, true, "", ""⟩
        : GenParams).auto_optimize = false
    ∧ generateAdvancedArticle
        ⟨"ai", 3, "medium", "professional", 10, 24, 7, "", false, true, "", ""⟩
        ⟨Except.ok [Json.str "t1"], fun _ _ => Except.ok (Json.obj []),
         fun _ => Except.ok (Json.obj
           [("selected_article", Json.obj []), ("optimized_article", Json.obj [])]),
         fun _ => Except.error "opt failed", fun _ => Except.error "pred failed"⟩
        ⟨"id1", 5, "t0"⟩
      = Except.ok (assembleArticle
          ⟨"ai", 3, "medium", "professional", 10, 24, 7, "", false, true, "", ""⟩
          ⟨"id1", 5, "t0"⟩ [Json.str "t1"] [Json.obj []]
          (Json.obj [("selected_article", Json.obj []), ("optimized_article", Json.obj [])])
          none)
    ∧ hasKey (assembleArticle
          ⟨"ai", 3, "medium", "professional", 10, 24, 7, "", false, true, "", ""⟩
          ⟨"id1", 5, "t0"⟩ [Json.str "t1"] [Json.obj []]
          (Json.obj [("selected_article", Json.obj []), ("optimized_article", Json.obj [])])
          none).result "optimized_article" = true :=
  ⟨rfl, rfl, rfl⟩

/-- Claim C7 (amended): a successful run with `auto_optimize = false`
persists exactly the stage-3 selection output as its result: the result
carries a truthy `selected_article`, it carries an `optimized_article` key
exactly when the (unvalidated) stage-3 selection output itself did, and the
run's outcome does not depend on the optimization call at all. -/
theorem c7_auto_optimize_false (p : GenParams) (o : Oracle) (env : Env) (a : Article)
    (hopt : p.auto_optimize = false)
    (hrun : generateAdvancedArticle p o env = Except.ok a) :
    (∃ ts, o.getTrendingTopics = Except.ok ts
       ∧ o.selectBestArticle (candidatesOf p o ts) = Except.ok a.result)
    ∧ truthyField a.result "selected_article" = true
    ∧ (∀ ts best, o.getTrendingTopics = Except.ok ts →
        o.selectBestArticle (candidatesOf p o ts) = Except.ok best →
        hasKey a.result "optimized_article" = hasKey best "optimized_article")
    ∧ (∀ g, generateAdvancedArticle p { o with optimizeArticle := g } env = Except.ok a) := by
  rw [run_ok_characterization] at hrun
  obtain ⟨ts, best, hts, hlen, hc, hsel, hgood, haeq⟩ := hrun
  have hfin : pipelineFinal p o best = best := by simp [pipelineFinal, hopt]
  have hres : a.result = best := by
    rw [haeq]
    show pipelineFinal p o best = best
    exact hfin
  refine ⟨⟨ts, hts, ?_⟩, ?_, ?_, ?_⟩
  · rw [hres]
    exact hsel
  · rw [hres]
    exact (Bool.and_eq_true _ _).mp hgood |>.2
  · intro ts2 best2 hts2 hsel2
    rw [hts] at hts2
    injection hts2 with he
    subst he
    rw [hsel] at hsel2
    injection hsel2 with he2
    subst he2
    rw [hres]
  · intro g
    rw [run_ok_characterization]
    refine ⟨ts, best, hts, hlen, hc, hsel, hgood, ?_⟩
    rw [haeq]
    show assembleArticle p env ts (candidatesOf p o ts) (pipelineFinal p o best)
        (if p.include_analytics then
          exceptToOption (o.predictPerformance (pipelineFinal p o best)) else none)
      = assembleArticle p env ts (candidatesOf p o ts)
        (pipelineFinal p { o with optimizeArticle := g } best)
        (if p.include_analytics then
          exceptToOption (o.predictPerformance
            (pipelineFinal p { o with optimizeArticle := g } best)) else none)
    have hfin2 : pipelineFinal p { o with optimizeArticle := g } best = best := by
      simp [pipelineFinal, hopt]
    rw [hfin, hfin2]

/-- Claim C7 witness: a concrete run with `auto_optimize = false` whose
persisted result is the selection output with its truthy
`selected_article`. -/
theorem c7_witness :
    truthyField (assembleArticle
        ⟨"ai", 3, "medium", "professional", 10, 24, 7, "", false, true, "", ""⟩
        ⟨"id1", 5, "t0"⟩ [Json.str "t1"] [Json.obj []]
        (Json.obj [("selected_article", Json.obj [])]) none).result
      "selected_article" = true :=
  ((c7_auto_optimize_false
    ⟨"ai", 3, "medium", "professional", 10, 24, 7, "", false, true, "", ""⟩
    ⟨Except.ok [Json.str "t1"], fun _ _ => Except.ok (Json.obj []),
     fun _ => Except.ok (Json.obj [("selected_article", Json.obj [])]),
     fun _ => Except.error "opt failed", fun _ => Except.error "pred failed"⟩
    ⟨"id1", 5, "t0"⟩ _ rfl rfl).2).1

theorem batch_results_getD (shared : GenParams) (topics : List String)
    (oracles : Nat → Oracle) (envs : Nat → Env) (bt : Nat) (i : Nat) (h : i < topics.length) :
    (generateBatchArticles shared topics oracles envs bt).batch_results.getD i dummyEntry
      = batchEntryFor shared oracles envs i (topics.getD i "") := by
  have h2 : i < (topics.enum.map
      (fun q => batchEntryFor shared oracles envs q.1 q.2)).length := by
    simpa [List.enum_length] using h
  show (topics.enum.map (fun q => batchEntryFor shared oracles envs q.1 q.2)).getD i dummyEntry
    = batchEntryFor shared oracles envs i (topics.getD i "")
  rw [List.getD_eq_getElem _ _ h2, List.getElem_map, List.getElem_enum,
    List.getD_eq_getElem topics "" h]

/-- Claim C8: the batch runner returns one entry per topic in input order
(entry `i` names the `i`-th topic and index `i`), reports the topic count
and the number of `success` entries, and records a per-topic `error` entry
when that topic's pipeline run throws, without affecting any other topic's
entry. -/
theorem c8_batch_runner (shared : GenParams) (topics : List String)
    (oracles : Nat → Oracle) (envs : Nat → Env) (bt : Nat) (hne : topics ≠ []) :
    ((generateBatchArticles shared topics oracles envs bt).batch_results.length = topics.length)
    ∧ ((generateBatchArticles shared topics oracles envs bt).total_topics = topics.length)
    ∧ ((generateBatchArticles shared topics oracles envs bt).successful_generations
        = ((generateBatchArticles shared topics oracles envs bt).batch_results.filter
            (fun r => r.status == "success")).length)
    ∧ (∀ i, i < topics.length →
        ((generateBatchArticles shared topics oracles envs bt).batch_results.getD i dummyEntry
            = batchEntryFor shared oracles envs i (topics.getD i ""))
        ∧ (batchEntryFor shared oracles envs i (topics.getD i "")).topic = topics.getD i ""
        ∧ (batchEntryFor shared oracles envs i (topics.getD i "")).index = i
        ∧ (∀ e, generateAdvancedArticle { shared with topic := topics.getD i "" }
              (oracles i) (envs i) = Except.error e →
            (batchEntryFor shared oracles envs i (topics.getD i "")).status = "error"
            ∧ (batchEntryFor shared oracles envs i (topics.getD i "")).error = some e)
        ∧ (∀ a, generateAdvancedArticle { shared with topic := topics.getD i "" }
              (oracles i) (envs i) = Except.ok a →
            (batchEntryFor shared oracles envs i (topics.getD i "")).status = "success"
            ∧ (batchEntryFor shared oracles envs i (topics.getD i "")).article_id = some a.id)) := by
  refine ⟨by simp [generateBatchArticles, List.enum_length], rfl, rfl, ?_⟩
  intro i h
  refine ⟨batch_results_getD shared topics oracles envs bt i h, ?_, ?_, ?_, ?_⟩
  · cases hr : generateAdvancedArticle { shared with topic := topics.getD i "" }
      (oracles i) (envs i) with
    | ok a2 => simp only [batchEntryFor, hr]
    | error e2 => simp only [batchEntryFor, hr]
  · cases hr : generateAdvancedArticle { shared with topic := topics.getD i "" }
      (oracles i) (envs i) with
    | ok a2 => simp only [batchEntryFor, hr]
    | error e2 => simp only [batchEntryFor, hr]
  · intro e he
    refine ⟨?_, ?_⟩ <;> simp only [batchEntryFor, he]
  · intro a ha
    refine ⟨?_, ?_⟩ <;> simp only [batchEntryFor, ha]

/-- Claim C8 witness: a single-topic batch whose pipeline run throws yields
an `error` entry carrying the message. -/
theorem c8_witness :
    (generateBatchArticles ⟨"x", 3, "medium", "professional", 10, 24, 7, "", true, true, "", ""⟩
        ["a"] (fun _ => ⟨Except.error "boom", fun _ _ => Except.error "e",
          fun _ => Except.error "e", fun _ => Except.error "e", fun _ => Except.error "e"⟩)
        (fun _ => ⟨"id", 1, "t"⟩) 7).batch_results.getD 0 dummyEntry
      = batchEntryFor ⟨"x", 3, "medium", "professional", 10, 24, 7, "", true, true, "", ""⟩
          (fun _ => ⟨Except.error "boom", fun _ _ => Except.error "e",
            fun _ => Except.error "e", fun _ => Except.error "e", fun _ => Except.error "e"⟩)
          (fun _ => ⟨"id", 1, "t"⟩) 0 "a"
    ∧ (batchEntryFor ⟨"x", 3, "medium", "professional", 10, 24, 7, "", true, true, "", ""⟩
          (fun _ => ⟨Except.error "boom", fun _ _ => Except.error "e",
            fun _ => Except.error "e", fun _ => Except.error "e", fun _ => Except.error "e"⟩)
          (fun _ => ⟨"id", 1, "t"⟩) 0 "a").status = "error"
    ∧ (batchEntryFor ⟨"x", 3, "medium", "professional", 10, 24, 7, "", true, true, "", ""⟩
          (fun _ => ⟨Except.error "boom", fun _ _ => Except.error "e",
            fun _ => Except.error "e", fun _ => Except.error "e", fun _ => Except.error "e"⟩)
          (fun _ => ⟨"id", 1, "t"⟩) 0 "a").error = some "boom" := by
  have h := (c8_batch_runner ⟨"x", 3, "medium", "professional", 10, 24, 7, "", true, true, "", ""⟩
    ["a"] (fun _ => ⟨Except.error "boom", fun _ _ => Except.error "e",
      fun _ => Except.error "e", fun _ => Except.error "e", fun _ => Except.error "e"⟩)
    (fun _ => ⟨"id", 1, "t"⟩) 7 (by simp)).2.2.2 0 (by simp)
  exact ⟨h.1, (h.2.2.2.1 "boom" rfl).1, (h.2.2.2.1 "boom" rfl).2⟩

/-- Claim C9 witness: a one-article store whose average processing time is
`Math.round` of the mean of its processing times. -/
theorem c9_witness :
    (getArticleStats [⟨"a1", "ai", "medium", "professional", 10, 24, 7, "", true, true,
        1, 1, 5, Json.null, none, "t", "generated"⟩]).average_processing_time
      = round (meanProcessingTime [⟨"a1", "ai", "medium", "professional", 10, 24, 7, "",
          true, true, 1, 1, 5, Json.null, none, "t", "generated"⟩]) :=
  ((c9_stats_average_processing_time [⟨"a1", "ai", "medium", "professional", 10, 24, 7, "",
      true, true, 1, 1, 5, Json.null, none, "t", "generated"⟩]).2.2.2.2 (by simp)).1
